import Mathlib

/-!
# Verification of the expression-signal pipeline (car-inside)

Shallow embedding of the webcam expression-classification pipeline:
meme registry (`memeRegistry`), blendshape signal derivation and the
threshold classifier (`logic/expression`), the adaptive range classifier,
presence gating, tongue detection and the tongue hold timer (pipeline
driver in `App`), the label stabilizer (`logic/smoother`), and the
color-sampling tongue detector (`getTongueConfidence`).

JavaScript `number` values are modelled as exact rationals (`ℚ`); no
claim under study depends on floating-point rounding.  Mutable refs
become explicit state passing; fallible lookups return `Option`.
-/

namespace CarInside

/-- Expression labels.  The base `logic/expression` module enumerates
`NEUTRAL | SMILE | SCREAM | SQUINT`; the extended pipeline adds `FREAKY`
for tongue-out. -/
inductive ExpressionLabel where
  | NEUTRAL
  | SMILE
  | SCREAM
  | SQUINT
  | FREAKY
  deriving DecidableEq, Repr

/-- Record `ExpressionSignals`: `{ faceW, mouthOpen, smile, eyeOpen }`. -/
structure ExpressionSignals where
  faceW : ℚ
  mouthOpen : ℚ
  smile : ℚ
  eyeOpen : ℚ
  deriving DecidableEq, Repr

/-- Thresholds `ExpressionThresholds` for the threshold-mode classifier. -/
structure ExpressionThresholds where
  mouthOpenScream : ℚ
  smile : ℚ
  mouthOpenSmileMax : ℚ
  eyeOpenSquint : ℚ
  deriving DecidableEq, Repr

/-! ## Meme registry (`memeRegistry`) -/

/-- Meme asset media type. -/
inductive MemeType where
  | image
  | video
  deriving DecidableEq, Repr

/-- A registered meme asset (`MemeAsset` interface). -/
structure MemeAsset where
  key : String
  mtype : MemeType
  src : String
  deriving DecidableEq, Repr

/-- Default key: `DEFAULT_MEME_KEY = "neutral"`. -/
def DEFAULT_MEME_KEY : String := "neutral"

/-- The `MEMES` record, as an association list in source order. -/
def MEMES : List (String × MemeAsset) :=
  [ ("neutral", ⟨"neutral", MemeType.image, "/memes/neutral.jpeg"⟩),
    ("smile", ⟨"smile", MemeType.image, "/memes/smile.jpg"⟩),
    ("grin", ⟨"grin", MemeType.image, "/memes/grin.png"⟩),
    ("scream", ⟨"scream", MemeType.image, "/memes/scream.png"⟩),
    ("judging", ⟨"judging", MemeType.image, "/memes/judging.jpg"⟩),
    ("tilt_left", ⟨"tilt_left", MemeType.image, "/memes/tilt_left.jpg"⟩),
    ("tilt_right", ⟨"tilt_right", MemeType.image, "/memes/tilt_right.jpeg"⟩),
    ("look_left", ⟨"look_left", MemeType.image, "/memes/look_left.png"⟩),
    ("look_right", ⟨"look_right", MemeType.image, "/memes/look_right.jpg"⟩),
    ("look_up", ⟨"look_up", MemeType.image, "/memes/look_up.jpeg"⟩),
    ("look_down", ⟨"look_down", MemeType.image, "/memes/look_down.png"⟩) ]

/-- Own-property layer of `MEMES[key]`: `some` when the key is a
registered own entry of the object literal. -/
def findMeme (key : String) : Option MemeAsset :=
  (MEMES.find? (fun entry => entry.1 = key)).map (fun entry => entry.2)

/-- Member names of `Object.prototype`, which a plain object literal
inherits: bracket lookup on `MEMES` with one of these keys yields the
inherited member (a function, or the prototype object for
`__proto__`) — a non-nullish value that is not a `MemeAsset`. -/
def objectProtoKeys : List String :=
  [ "constructor", "hasOwnProperty", "isPrototypeOf",
    "propertyIsEnumerable", "toLocaleString", "toString", "valueOf",
    "__proto__", "__defineGetter__", "__defineSetter__",
    "__lookupGetter__", "__lookupSetter__" ]

/-- Result of the JavaScript bracket lookup `MEMES[key]`: a registered
own entry, a member inherited from `Object.prototype`, or `undefined`. -/
inductive JsMemeValue where
  | asset (a : MemeAsset)
  | inherited (name : String)
  | undef
  deriving DecidableEq, Repr

/-- Bracket lookup `MEMES[key]` with prototype-chain semantics: own
entries shadow the prototype; unregistered keys naming an
`Object.prototype` member yield the inherited member; all other keys
yield `undefined`. -/
def memeIndex (key : String) : JsMemeValue :=
  match findMeme key with
  | some a => JsMemeValue.asset a
  | none =>
    if key ∈ objectProtoKeys then JsMemeValue.inherited key
    else JsMemeValue.undef

/-- Lookup `getMeme(key) = MEMES[key] ?? MEMES[DEFAULT_MEME_KEY]`: the
`??` operator falls back only on `undefined` (or `null`), so an
inherited `Object.prototype` member is returned as-is and defeats the
fallback. -/
def getMeme (key : String) : JsMemeValue :=
  match memeIndex key with
  | JsMemeValue.undef => memeIndex DEFAULT_MEME_KEY
  | v => v

/-- The asset registered under the default key. -/
def neutralAsset : MemeAsset :=
  ⟨"neutral", MemeType.image, "/memes/neutral.jpeg"⟩

/-! ## Blendshape signal derivation (`computeBlendshapeSignals`) -/

/-- A model blendshape category: `{ categoryName, score }`. -/
structure BlendshapeCategory where
  categoryName : String
  score : ℚ
  deriving DecidableEq, Repr

/-- Score lookup `getScore(categories, name)`: score of the first category with the
given name, or `none` when absent. -/
def getScore (categories : List BlendshapeCategory) (name : String) : Option ℚ :=
  (categories.find? (fun entry => entry.categoryName = name)).map
    (fun entry => entry.score)

/-- Defaulted lookup `getScore(categories, name) ?? 0` — missing categories default to 0. -/
def scoreOr0 (categories : List BlendshapeCategory) (name : String) : ℚ :=
  (getScore categories name).getD 0

/-- Derivation `computeBlendshapeSignals`: `none` when the category list is missing
or empty, otherwise the derived signal vector. -/
def computeBlendshapeSignals
    (categories : Option (List BlendshapeCategory)) : Option ExpressionSignals :=
  match categories with
  | none => none
  | some cats =>
    if cats.length = 0 then none
    else
      let jawOpen := scoreOr0 cats "jawOpen"
      let mouthFunnel := scoreOr0 cats "mouthFunnel"
      let mouthSmileLeft := scoreOr0 cats "mouthSmileLeft"
      let mouthSmileRight := scoreOr0 cats "mouthSmileRight"
      let eyeSquintLeft := scoreOr0 cats "eyeSquintLeft"
      let eyeSquintRight := scoreOr0 cats "eyeSquintRight"
      some
        { faceW := 1
          mouthOpen := min 1 (jawOpen + mouthFunnel * (1/2))
          smile := min 1 ((mouthSmileLeft + mouthSmileRight) / 2)
          eyeOpen := max 0 (1 - (eyeSquintLeft + eyeSquintRight) / 2) }

/-! ## Threshold-mode classifier (`classifyExpression`) -/

/-- Scream test: direction of the comparison depends on the sign of the
threshold (`mouthOpen < t` for negative `t`, `mouthOpen > t` otherwise). -/
def screamTriggered (s : ExpressionSignals) (t : ExpressionThresholds) : Bool :=
  if t.mouthOpenScream < 0 then decide (s.mouthOpen < t.mouthOpenScream)
  else decide (t.mouthOpenScream < s.mouthOpen)

/-- Smile test: sign-dependent comparison direction. -/
def smileTriggered (s : ExpressionSignals) (t : ExpressionThresholds) : Bool :=
  if t.smile < 0 then decide (s.smile < t.smile)
  else decide (t.smile < s.smile)

/-- Mouth-open gate for the smile test: sign-dependent direction. -/
def mouthOk (s : ExpressionSignals) (t : ExpressionThresholds) : Bool :=
  if t.mouthOpenSmileMax < 0 then decide (t.mouthOpenSmileMax < s.mouthOpen)
  else decide (s.mouthOpen < t.mouthOpenSmileMax)

/-- Squint test.  In the source both arms of the sign ternary are the
same `eyeOpen < eyeOpenSquint` comparison. -/
def squintTriggered (s : ExpressionSignals) (t : ExpressionThresholds) : Bool :=
  if t.eyeOpenSquint < 0 then decide (s.eyeOpen < t.eyeOpenSquint)
  else decide (s.eyeOpen < t.eyeOpenSquint)

/-- Classifier `classifyExpression(signals, thresholds)`: first match wins in the
order scream, smile, squint, else neutral. -/
def classifyExpression (s : ExpressionSignals) (t : ExpressionThresholds) :
    ExpressionLabel :=
  if screamTriggered s t then ExpressionLabel.SCREAM
  else if smileTriggered s t && mouthOk s t then ExpressionLabel.SMILE
  else if squintTriggered s t then ExpressionLabel.SQUINT
  else ExpressionLabel.NEUTRAL

/-- Default thresholds of `classifyExpression`'s signature. -/
def defaultThresholds : ExpressionThresholds :=
  ⟨28/100, 62/100, 18/100, 12/100⟩

/-! ## Adaptive range classifier (`classifyFromRanges`, pipeline driver) -/

/-- Adaptive classifier `classifyFromRanges(signals, min, max)` as written in the driver. -/
def classifyFromRanges (s mn mx : ExpressionSignals) : ExpressionLabel :=
  let mouthRange := mx.mouthOpen - mn.mouthOpen
  let smileRange := mx.smile - mn.smile
  let eyeRange := mx.eyeOpen - mn.eyeOpen
  if mouthRange < 5/100 ∧ smileRange < 5/100 ∧ eyeRange < 5/100 then
    ExpressionLabel.NEUTRAL
  else
    let screamT := mn.mouthOpen + mouthRange * (70/100)
    let smileT := mn.smile + smileRange * (75/100)
    let smileMouthMax := mn.mouthOpen + mouthRange * (60/100)
    let squintT := mn.eyeOpen + eyeRange * (40/100)
    let mouthMargin := mouthRange * (8/100)
    let smileMargin := smileRange * (8/100)
    let eyeMargin := eyeRange * (8/100)
    if screamT + mouthMargin < s.mouthOpen then ExpressionLabel.SCREAM
    else if smileT + smileMargin < s.smile ∧ s.mouthOpen < smileMouthMax then
      ExpressionLabel.SMILE
    else if s.eyeOpen < squintT - eyeMargin * (1/2) ∧ s.mouthOpen < smileMouthMax then
      ExpressionLabel.SQUINT
    else ExpressionLabel.NEUTRAL

/-- The "normal threshold evaluation" of the adaptive classifier, stated
from the spec's words: thresholds derived as fractions of each observed
range, evaluated in the order scream, smile, squint, else neutral.
Compared against `classifyFromRanges` to settle the neutral-gate claim. -/
def rangeEval (s mn mx : ExpressionSignals) : ExpressionLabel :=
  let mouthRange := mx.mouthOpen - mn.mouthOpen
  let smileRange := mx.smile - mn.smile
  let eyeRange := mx.eyeOpen - mn.eyeOpen
  let screamT := mn.mouthOpen + mouthRange * (70/100)
  let smileT := mn.smile + smileRange * (75/100)
  let smileMouthMax := mn.mouthOpen + mouthRange * (60/100)
  let squintT := mn.eyeOpen + eyeRange * (40/100)
  let mouthMargin := mouthRange * (8/100)
  let smileMargin := smileRange * (8/100)
  let eyeMargin := eyeRange * (8/100)
  if screamT + mouthMargin < s.mouthOpen then ExpressionLabel.SCREAM
  else if smileT + smileMargin < s.smile ∧ s.mouthOpen < smileMouthMax then
    ExpressionLabel.SMILE
  else if s.eyeOpen < squintT - eyeMargin * (1/2) ∧ s.mouthOpen < smileMouthMax then
    ExpressionLabel.SQUINT
  else ExpressionLabel.NEUTRAL

/-! ## Blendshape-branch raw label (pipeline driver)

In the driver's blendshape branch, `nextLabel` is initialised to
`NEUTRAL`, `tongueProxy` is computed (reading `nextLabel` at that
point), `classifyExpression` is then assigned to `nextLabel`, and
finally `tongueProxy` forces `FREAKY`.  The extended `logic/expression`
module used by this branch is not under `src/`; its threshold classifier
is modelled from the spec (§4.8) and coincides with the in-repo
`classifyExpression`, with the extra `tongueOut: 0.5` threshold unused
by the four-way evaluation. -/

/-- Thresholds the driver passes in the blendshape branch. -/
def blendshapeThresholds : ExpressionThresholds :=
  ⟨20/100, 20/100, 25/100, 50/100⟩

/-- The driver's `tongueProxy` condition, evaluated while `nextLabel`
still holds its initial value. -/
def tongueProxy (tongueScore mouthFunnel mouthSmile jawOpen : ℚ)
    (nextLabel : ExpressionLabel) : Bool :=
  decide (20/100 ≤ tongueScore) ||
    (decide (nextLabel = ExpressionLabel.SCREAM) &&
      decide (35/100 ≤ jawOpen) &&
      decide (1/100 ≤ mouthFunnel) &&
      decide (mouthSmile ≤ 45/100))

/-- Raw label produced by the driver's blendshape branch: the proxy is
computed against the pre-classification `nextLabel` (`NEUTRAL`), then
classification runs, then a positive proxy forces `FREAKY`. -/
def blendBranchLabel (tongueScore mouthFunnel mouthSmile jawOpen : ℚ)
    (smooth : ExpressionSignals) : ExpressionLabel :=
  let nextLabel := ExpressionLabel.NEUTRAL
  let proxy := tongueProxy tongueScore mouthFunnel mouthSmile jawOpen nextLabel
  let classified := classifyExpression smooth blendshapeThresholds
  if proxy then ExpressionLabel.FREAKY else classified

/-! ## Label stabilizer (`logic/smoother`) -/

/-- State of `LabelStabilizer`: current label, pending candidate with its
consecutive-match count, time of the last committed switch, and the
construction parameters. -/
structure LabelStabilizer (α : Type) where
  current : α
  pending : Option α
  pendingFrames : ℕ
  lastSwitchAt : ℚ
  stableFrames : ℕ
  cooldownMs : ℚ
  deriving Repr

/-- Constructor default parameters: `stableFrames = 4`. -/
def defaultStableFrames : ℕ := 4

/-- Constructor default parameters: `cooldownMs = 500`. -/
def defaultCooldownMs : ℚ := 500

/-- Construction `new LabelStabilizer(initial)` — construction without explicit
`stableFrames` / `cooldownMs` takes the constructor defaults. -/
def mkLabelStabilizer (initial : α) : LabelStabilizer α :=
  ⟨initial, none, 0, 0, defaultStableFrames, defaultCooldownMs⟩

/-- Construction `new LabelStabilizer(initial, stableFrames, cooldownMs)`. -/
def mkLabelStabilizerWith (initial : α) (stableFrames : ℕ) (cooldownMs : ℚ) :
    LabelStabilizer α :=
  ⟨initial, none, 0, 0, stableFrames, cooldownMs⟩

/-- The stabilizer the pipeline driver constructs:
`new LabelStabilizer<ExpressionLabel>("NEUTRAL", 5, 600)`. -/
def appStabilizerInit : LabelStabilizer ExpressionLabel :=
  mkLabelStabilizerWith ExpressionLabel.NEUTRAL 5 600

/-- Update `LabelStabilizer.update(label, nowMs)`: the post-call state.  The
TS method returns `this.current` after any commit, i.e. the `current`
field of this result. -/
def LabelStabilizer.update [DecidableEq α] (s : LabelStabilizer α)
    (label : α) (nowMs : ℚ) : LabelStabilizer α :=
  if label = s.current then
    { s with pending := none, pendingFrames := 0 }
  else if some label ≠ s.pending then
    { s with pending := some label, pendingFrames := 1 }
  else
    let frames := s.pendingFrames + 1
    if s.stableFrames ≤ frames ∧ s.cooldownMs ≤ nowMs - s.lastSwitchAt then
      { s with current := label, pending := none, pendingFrames := 0,
               lastSwitchAt := nowMs }
    else
      { s with pendingFrames := frames }

/-- Feed a list of `(label, nowMs)` updates; collect the returned labels
and the final state. -/
def runStabilizer [DecidableEq α] (s : LabelStabilizer α)
    (inputs : List (α × ℚ)) : List α × LabelStabilizer α :=
  match inputs with
  | [] => ([], s)
  | (label, nowMs) :: rest =>
    let s1 := s.update label nowMs
    let (outs, sEnd) := runStabilizer s1 rest
    (s1.current :: outs, sEnd)

/-! ## Face-presence gating (pipeline driver) -/

/-- Hold window `FACE_HOLD_MS = 500`. -/
def FACE_HOLD_MS : ℚ := 500

/-- One presence-gating step (driver `onResult`, after the readiness /
stalled-stream / track-liveness guards have passed): the last-detected
timestamp is set on detection, `withinHold` is read, and the timestamp
is cleared again on an undetected frame.  Returns `stableDetected` and
the new last-detected timestamp. -/
def presenceStep (lastDetectedAt : Option ℚ) (now : ℚ) (detected : Bool) :
    Bool × Option ℚ :=
  let last1 := if detected then some now else lastDetectedAt
  let withinHold :=
    match last1 with
    | some t => decide (now - t < FACE_HOLD_MS)
    | none => false
  let stableDetected := detected || withinHold
  let last2 := if detected then last1 else none
  (stableDetected, last2)

/-- Presence gating over a list of `(now, detected)` frames from a given
last-detected timestamp; returns the per-frame `stableDetected` trace. -/
def presenceRunFrom (last : Option ℚ) : List (ℚ × Bool) → List Bool
  | [] => []
  | (now, detected) :: rest =>
    let (stable, last2) := presenceStep last now detected
    stable :: presenceRunFrom last2 rest

/-- Presence gating over a whole run, starting from a cleared
last-detected timestamp. -/
def presenceRun (frames : List (ℚ × Bool)) : List Bool :=
  presenceRunFrom none frames

/-! ## Tongue hold timer (pipeline driver) -/

/-- The tongue color-sampling / hold block of the driver, run after the
branch label is computed.  Inputs: the current hold deadline, the frame
time, the branch label, the geometry-path `mouthOpen` when landmark
signals exist this frame, and the color-sampling confidence when it was
computed.  Returns the frame's raw label and the new hold deadline. -/
def tongueStep (holdUntil : ℚ) (now : ℚ) (base : ExpressionLabel)
    (landmarkMouthOpen : Option ℚ) (colorScore : Option ℚ) :
    ExpressionLabel × ℚ :=
  match landmarkMouthOpen with
  | none => (base, holdUntil)
  | some mo =>
    let hold1 :=
      match colorScore with
      | some c => if 25/100 ≤ c ∧ 1/10 < mo then now + 700 else holdUntil
      | none => holdUntil
    let label :=
      if now < hold1 ∧ 8/100 < mo then ExpressionLabel.FREAKY else base
    (label, hold1)

/-! ## Color-sampling tongue detector (`getTongueConfidence`) -/

/-- A 2D face landmark in normalized image coordinates. -/
structure FaceLandmark where
  x : ℚ
  y : ℚ
  deriving DecidableEq, Repr

/-- One sampled pixel. -/
structure RGB where
  r : ℕ
  g : ℕ
  b : ℕ
  deriving DecidableEq, Repr

/-- The raw video frame: dimensions plus pixel access.  Array indexing
of `landmarks[i]` is modelled as a partial map `ℕ → Option FaceLandmark`. -/
structure VideoFrame where
  width : ℕ
  height : ℕ
  pixel : ℤ → ℤ → RGB

/-- The red-dominance pixel test:
`r > 50 && r > g + 10 && r > b + 10 && r - (g + b) / 2 > 8`. -/
def redDominant (p : RGB) : Bool :=
  decide (50 < p.r) && decide (p.g + 10 < p.r) && decide (p.b + 10 < p.r) &&
    decide ((8 : ℚ) < (p.r : ℚ) - ((p.g : ℚ) + (p.b : ℚ)) / 2)

/-- The sample-rectangle geometry computed by `getTongueConfidence`
(before the positivity check): mouth box, sample size, the top-left
corner and the frame-clamped size. -/
structure TongueRect where
  mouthWidth : ℚ
  mouthHeight : ℚ
  sampleWidth : ℤ
  sampleHeight : ℤ
  sampleX : ℤ
  sampleY : ℤ
  clampedWidth : ℤ
  clampedHeight : ℤ
  deriving DecidableEq, Repr

/-- Geometry portion of `getTongueConfidence`: pixel-space mouth corners
and lips give the mouth box; the sample is `max(6, floor(w * 0.5))` by
`max(4, floor(h * 0.6))` centered at the mouth's vertical midpoint
shifted down by 10% of mouth height, clamped to the frame. -/
def tongueRect (width height : ℕ) (mouthLeft mouthRight upperLip lowerLip :
    FaceLandmark) : TongueRect :=
  let left := mouthLeft.x * width
  let right := mouthRight.x * width
  let top := upperLip.y * height
  let bottom := lowerLip.y * height
  let mouthWidth := max (right - left) 1
  let mouthHeight := max (bottom - top) 1
  let sampleWidth : ℤ := max 6 (Int.floor (mouthWidth * (5/10)))
  let sampleHeight : ℤ := max 4 (Int.floor (mouthHeight * (6/10)))
  let centerX := (left + right) / 2
  let centerY := (top + bottom) / 2 + mouthHeight * (1/10)
  let sampleX : ℤ := max 0 (Int.floor (centerX - (sampleWidth : ℚ) / 2))
  let sampleY : ℤ := max 0 (Int.floor (centerY - (sampleHeight : ℚ) / 2))
  let clampedWidth : ℤ := min sampleWidth ((width : ℤ) - sampleX)
  let clampedHeight : ℤ := min sampleHeight ((height : ℤ) - sampleY)
  ⟨mouthWidth, mouthHeight, sampleWidth, sampleHeight, sampleX, sampleY,
    clampedWidth, clampedHeight⟩

/-- The pixels read back from the crop, row-major as `getImageData`. -/
def sampledPixels (frame : VideoFrame) (rect : TongueRect) : List RGB :=
  (List.range rect.clampedHeight.toNat).flatMap (fun yy =>
    (List.range rect.clampedWidth.toNat).map (fun xx =>
      frame.pixel (rect.sampleX + xx) (rect.sampleY + yy)))

/-- Detector `getTongueConfidence(video, landmarks, canvas)`: `none` when any of
the four mouth landmarks is missing, a frame dimension is zero, the
clamped crop is empty, the 2D context is unavailable, or no pixel was
sampled; otherwise the fraction of red-dominant pixels in the crop. -/
def getTongueConfidence (frame : VideoFrame)
    (landmarks : ℕ → Option FaceLandmark) (ctxAvailable : Bool) : Option ℚ :=
  match landmarks 61, landmarks 291, landmarks 13, landmarks 14 with
  | some mouthLeft, some mouthRight, some upperLip, some lowerLip =>
    if frame.width = 0 ∨ frame.height = 0 then none
    else
      let rect := tongueRect frame.width frame.height mouthLeft mouthRight
        upperLip lowerLip
      if rect.clampedWidth ≤ 0 ∨ rect.clampedHeight ≤ 0 then none
      else if ctxAvailable = false then none
      else
        let pixels := sampledPixels frame rect
        let total := pixels.length
        if total = 0 then none
        else some ((pixels.countP redDominant : ℚ) / (total : ℚ))
  | _, _, _, _ => none

/-! ## Concrete scenario inputs -/

/-- Alternating `A, C, A, C, …` stabilizer input (n repetitions of the
two-label block, all timestamps cooldown-eligible). -/
def altPairs : ℕ → List (String × ℚ)
  | 0 => []
  | n + 1 => ("A", 1000) :: ("C", 1000) :: altPairs n

/-- A small all-red test frame for the color-sampling detector. -/
def tinyFrame : VideoFrame :=
  ⟨10, 10, fun _ _ => ⟨200, 10, 10⟩⟩

/-- Mouth landmarks for the small test frame. -/
def tinyLandmarks : ℕ → Option FaceLandmark := fun i =>
  if i = 61 then some ⟨1/10, 1/2⟩
  else if i = 291 then some ⟨3/10, 1/2⟩
  else if i = 13 then some ⟨2/10, 4/10⟩
  else if i = 14 then some ⟨2/10, 6/10⟩
  else none

/-! ## Shared lemmas -/

/-- An update whose label differs from both the current label and the
pending candidate records the label as the new pending candidate and
leaves everything else unchanged. -/
theorem stabilizer_reject_step [DecidableEq α] (s : LabelStabilizer α)
    (l : α) (now : ℚ) (h1 : ¬l = s.current) (h2 : some l ≠ s.pending) :
    s.update l now = { s with pending := some l, pendingFrames := 1 } := by
  unfold LabelStabilizer.update
  rw [if_neg h1, if_pos h2]

/-- A repeated pending match that does not yet satisfy the commit
condition only increments the consecutive-match counter. -/
theorem stabilizer_pending_step [DecidableEq α] (s : LabelStabilizer α)
    (l : α) (now : ℚ) (h1 : ¬l = s.current) (h2 : some l = s.pending)
    (h3 : ¬(s.stableFrames ≤ s.pendingFrames + 1 ∧
      s.cooldownMs ≤ now - s.lastSwitchAt)) :
    s.update l now = { s with pendingFrames := s.pendingFrames + 1 } := by
  unfold LabelStabilizer.update
  rw [if_neg h1, if_neg (by simpa using h2), if_neg h3]

/-- A repeated pending match satisfying the commit condition switches
the current label and resets the pending state. -/
theorem stabilizer_commit_step [DecidableEq α] (s : LabelStabilizer α)
    (l : α) (now : ℚ) (h1 : ¬l = s.current) (h2 : some l = s.pending)
    (h3 : s.stableFrames ≤ s.pendingFrames + 1 ∧
      s.cooldownMs ≤ now - s.lastSwitchAt) :
    s.update l now = { s with
      current := l
      pending := none
      pendingFrames := 0
      lastSwitchAt := now } := by
  unfold LabelStabilizer.update
  rw [if_neg h1, if_neg (by simpa using h2), if_pos h3]

/-- Feeding the alternating block stream to a stabilizer currently at
`"B"` whose pending candidate is not `"A"` never commits a switch. -/
theorem stabilizer_alt_never_commits (n : ℕ) :
    ∀ s : LabelStabilizer String, s.current = "B" → s.pending ≠ some "A" →
      (runStabilizer s (altPairs n)).2.current = "B" := by
  induction n with
  | zero =>
    intro s hcur _
    simpa [runStabilizer, altPairs] using hcur
  | succ n ih =>
    intro s hcur hpend
    have e1 : s.update "A" 1000 =
        { s with pending := some "A", pendingFrames := 1 } :=
      stabilizer_reject_step s "A" 1000 (by rw [hcur]; decide) (Ne.symm hpend)
    have e2 : ({ s with pending := some "A", pendingFrames := 1 } :
        LabelStabilizer String).update "C" 1000 =
        { s with pending := some "C", pendingFrames := 1 } := by
      have := stabilizer_reject_step
        ({ s with pending := some "A", pendingFrames := 1 } :
          LabelStabilizer String) "C" 1000 (by simp [hcur]) (by simp)
      simpa using this
    simp only [altPairs, runStabilizer, e1, e2]
    exact ih _ hcur (by simp)

/-- The four-way threshold classifier never produces the tongue label. -/
theorem classifyExpression_ne_FREAKY (s : ExpressionSignals)
    (t : ExpressionThresholds) :
    classifyExpression s t ≠ ExpressionLabel.FREAKY := by
  unfold classifyExpression
  split
  · simp
  · split
    · simp
    · split <;> simp

/-! ## Claim theorems -/

/-- C10 counterexample: for the key `"toString"` no asset is registered,
yet the bracket lookup hits the inherited `Object.prototype.toString` —
a non-nullish value — so the `??` fallback never fires and `getMeme`
returns neither a registered asset nor the neutral asset. -/
theorem getMeme_prototype_key_counterexample :
    getMeme "toString" = JsMemeValue.inherited "toString" ∧
    findMeme "toString" = none ∧
    JsMemeValue.inherited "toString" ≠ JsMemeValue.asset neutralAsset := by
  refine ⟨by decide, by decide, by decide⟩

/-- C10 amended: for a key with a registered own entry `getMeme` returns
that asset; for an unregistered key naming an `Object.prototype` member
the lookup returns the inherited non-nullish member (not an asset) and
the fallback never triggers; for every other string key it returns the
asset registered under the default key `"neutral"`. -/
theorem getMeme_prototype_aware_fallback :
    ∀ key : String,
      (∃ a : MemeAsset, findMeme key = some a ∧
        getMeme key = JsMemeValue.asset a) ∨
      (findMeme key = none ∧ key ∈ objectProtoKeys ∧
        getMeme key = JsMemeValue.inherited key) ∨
      (findMeme key = none ∧ ¬key ∈ objectProtoKeys ∧
        getMeme key = JsMemeValue.asset neutralAsset) := by
  intro key
  cases h : findMeme key with
  | some a =>
    left
    exact ⟨a, rfl, by simp [getMeme, memeIndex, h]⟩
  | none =>
    by_cases hp : key ∈ objectProtoKeys
    · right; left
      exact ⟨rfl, hp, by simp [getMeme, memeIndex, h, hp]⟩
    · right; right
      refine ⟨rfl, hp, ?_⟩
      have hdef : findMeme DEFAULT_MEME_KEY = some neutralAsset := by decide
      simp [getMeme, memeIndex, h, hp, hdef]

/-- C5 counterexample: a `LabelStabilizer` constructed without explicit
parameters does not have `stableFrames = 5` and `cooldownMs = 600`. -/
theorem label_stabilizer_default_counterexample :
    ¬((mkLabelStabilizer ExpressionLabel.NEUTRAL).stableFrames = 5 ∧
      (mkLabelStabilizer ExpressionLabel.NEUTRAL).cooldownMs = 600) := by
  decide

/-- C5 amended: default construction uses `stableFrames = 4` and
`cooldownMs = 500`; the pipeline driver passes `5` and `600`
explicitly when building its stabilizer. -/
theorem label_stabilizer_default_amended :
    (mkLabelStabilizer ExpressionLabel.NEUTRAL).stableFrames = 4 ∧
    (mkLabelStabilizer ExpressionLabel.NEUTRAL).cooldownMs = 500 ∧
    appStabilizerInit.current = ExpressionLabel.NEUTRAL ∧
    appStabilizerInit.stableFrames = 5 ∧
    appStabilizerInit.cooldownMs = 600 := by
  decide

/-- C8: `computeBlendshapeSignals` is absent exactly when no categories
are supplied; otherwise, with missing categories scored 0, it yields
`mouthOpen = min(1, jawOpen + 0.5·mouthFunnel)`,
`smile = min(1, mean(mouthSmileLeft, mouthSmileRight))`,
`eyeOpen = max(0, 1 − mean(eyeSquintLeft, eyeSquintRight))` and
`faceW = 1`. -/
theorem blendshape_signals_spec :
    (∀ categories : Option (List BlendshapeCategory),
        computeBlendshapeSignals categories = none ↔
          categories = none ∨ categories = some []) ∧
    (∀ (c : BlendshapeCategory) (l : List BlendshapeCategory),
        computeBlendshapeSignals (some (c :: l)) =
          some
            { faceW := 1
              mouthOpen :=
                min 1 (scoreOr0 (c :: l) "jawOpen" +
                  (1/2) * scoreOr0 (c :: l) "mouthFunnel")
              smile :=
                min 1 ((scoreOr0 (c :: l) "mouthSmileLeft" +
                  scoreOr0 (c :: l) "mouthSmileRight") / 2)
              eyeOpen :=
                max 0 (1 - (scoreOr0 (c :: l) "eyeSquintLeft" +
                  scoreOr0 (c :: l) "eyeSquintRight") / 2) }) := by
  constructor
  · intro categories
    cases categories with
    | none => simp [computeBlendshapeSignals]
    | some cats =>
      cases cats with
      | nil => simp [computeBlendshapeSignals]
      | cons c l => simp [computeBlendshapeSignals]
  · intro c l
    simp only [computeBlendshapeSignals, List.length_cons]
    rw [if_neg (by simp)]
    have hm : scoreOr0 (c :: l) "mouthFunnel" * (1/2) =
        (1/2) * scoreOr0 (c :: l) "mouthFunnel" := mul_comm _ _
    rw [hm]

/-- C9: the adaptive range classifier returns `NEUTRAL` unconditionally
when all three observed ranges span less than 0.05; otherwise — in
particular with min all 0 and max all 1 — the normal threshold
evaluation in the order scream, smile, squint, else neutral applies. -/
theorem adaptive_range_neutral_gate :
    (∀ s mn mx : ExpressionSignals,
        mx.mouthOpen - mn.mouthOpen < 5/100 ∧ mx.smile - mn.smile < 5/100 ∧
          mx.eyeOpen - mn.eyeOpen < 5/100 →
        classifyFromRanges s mn mx = ExpressionLabel.NEUTRAL) ∧
    (∀ s mn mx : ExpressionSignals,
        ¬(mx.mouthOpen - mn.mouthOpen < 5/100 ∧ mx.smile - mn.smile < 5/100 ∧
          mx.eyeOpen - mn.eyeOpen < 5/100) →
        classifyFromRanges s mn mx = rangeEval s mn mx) ∧
    (∀ (s : ExpressionSignals) (fa fb : ℚ),
        classifyFromRanges s ⟨fa, 0, 0, 0⟩ ⟨fb, 1, 1, 1⟩ =
          rangeEval s ⟨fa, 0, 0, 0⟩ ⟨fb, 1, 1, 1⟩) := by
  refine ⟨?_, ?_, ?_⟩
  · intro s mn mx h
    simp only [classifyFromRanges]
    rw [if_pos h]
  · intro s mn mx h
    simp only [classifyFromRanges, rangeEval]
    rw [if_neg h]
  · intro s fa fb
    simp only [classifyFromRanges, rangeEval]
    rw [if_neg (by norm_num)]

/-- C9 witness: with degenerate ranges the classifier is `NEUTRAL`, and
with full 0-to-1 ranges the normal evaluation applies. -/
theorem adaptive_range_neutral_gate_witness :
    classifyFromRanges ⟨1, 1, 1, 0⟩ ⟨1, 0, 0, 0⟩ ⟨1, 0, 0, 0⟩ =
      ExpressionLabel.NEUTRAL ∧
    classifyFromRanges ⟨1, 1, 1, 0⟩ ⟨1, 0, 0, 0⟩ ⟨1, 1, 1, 1⟩ =
      rangeEval ⟨1, 1, 1, 0⟩ ⟨1, 0, 0, 0⟩ ⟨1, 1, 1, 1⟩ := by
  constructor
  · exact adaptive_range_neutral_gate.1 ⟨1, 1, 1, 0⟩ ⟨1, 0, 0, 0⟩ ⟨1, 0, 0, 0⟩
      (by norm_num)
  · exact adaptive_range_neutral_gate.2.2 ⟨1, 1, 1, 0⟩ 1 1

/-- C6: the squint comparison is `eyeOpen < eyeOpenSquint` on both arms
of the sign ternary, so a negative `eyeOpenSquint` does not flip the
comparison direction; at signals `{mouthOpen: 0.1, smile: 0.1,
eyeOpen: 0.5}` and thresholds `{0.28, 0.62, 0.18, −0.12}` the claimed
flipped test would fire (`0.5 > −0.12`) yet the code returns `NEUTRAL`. -/
theorem threshold_sign_convention_squint_not_flipped :
    (∀ (s : ExpressionSignals) (t : ExpressionThresholds),
        squintTriggered s t = decide (s.eyeOpen < t.eyeOpenSquint)) ∧
    classifyExpression ⟨1, 1/10, 1/10, 1/2⟩ ⟨28/100, 62/100, 18/100, -12/100⟩ =
      ExpressionLabel.NEUTRAL ∧
    (-12/100 : ℚ) < 0 ∧
    (-12/100 : ℚ) < (1/2 : ℚ) := by
  refine ⟨?_,
    by norm_num [classifyExpression, screamTriggered, smileTriggered,
      mouthOk, squintTriggered],
    by norm_num, by norm_num⟩
  intro s t
  simp [squintTriggered]

/-- C2: the blendshape-native tongue detector fires exactly when the
tongue category score is ≥ 0.2 — the SCREAM disjunct of `tongueProxy`
reads `nextLabel` before classification assigns it, so it compares the
initial `NEUTRAL` and can never fire.  At a frame whose classification
is SCREAM with `jawOpen = 0.4 ≥ 0.35`, `mouthFunnel = 0.05 ≥ 0.01`,
`mouthSmile = 0.1 ≤ 0.45` and tongue score 0, the raw label stays
SCREAM instead of the claimed FREAKY. -/
theorem tongue_proxy_scream_branch_dead :
    (∀ (tongueScore mouthFunnel mouthSmile jawOpen : ℚ)
        (smooth : ExpressionSignals),
        blendBranchLabel tongueScore mouthFunnel mouthSmile jawOpen smooth =
            ExpressionLabel.FREAKY ↔
          20/100 ≤ tongueScore) ∧
    blendBranchLabel 0 (5/100) (1/10) (4/10) ⟨1, 425/1000, 1/10, 1⟩ =
      ExpressionLabel.SCREAM ∧
    classifyExpression ⟨1, 425/1000, 1/10, 1⟩ blendshapeThresholds =
      ExpressionLabel.SCREAM ∧
    (35/100 : ℚ) ≤ 4/10 ∧ (1/100 : ℚ) ≤ 5/100 ∧ (1/10 : ℚ) ≤ 45/100 ∧
    ¬((20/100 : ℚ) ≤ 0) ∧
    ExpressionLabel.SCREAM ≠ ExpressionLabel.FREAKY := by
  refine ⟨?_,
    by
      norm_num [blendBranchLabel, tongueProxy, blendshapeThresholds,
        classifyExpression, screamTriggered, smileTriggered, mouthOk,
        squintTriggered]
      intro h
      exact absurd h (by decide),
    by norm_num [classifyExpression, blendshapeThresholds, screamTriggered,
      smileTriggered, mouthOk, squintTriggered],
    by norm_num, by norm_num, by norm_num, by norm_num, by decide⟩
  intro tongueScore mouthFunnel mouthSmile jawOpen smooth
  by_cases h : (20/100 : ℚ) ≤ tongueScore
  · simp [blendBranchLabel, tongueProxy, h]
  · simp [blendBranchLabel, tongueProxy, h,
      classifyExpression_ne_FREAKY smooth blendshapeThresholds]

/-- C4: the stabilizer's current label changes only on an update whose
label equals the pending candidate with at least `stableFrames`
consecutive matches and whose timestamp is at least `cooldownMs` after
the last switch; with `stableFrames = 5`, `cooldownMs = 600`, five `A`s
after initial `B` return `B, B, B, B, A`, and alternating `A, C, …`
never commits. -/
theorem label_stabilizer_commit_invariant :
    (∀ (α : Type) [inst : DecidableEq α] (s : LabelStabilizer α)
        (label : α) (now : ℚ),
        (s.update label now).current ≠ s.current →
          s.pending = some label ∧
          s.stableFrames ≤ s.pendingFrames + 1 ∧
          s.cooldownMs ≤ now - s.lastSwitchAt ∧
          (s.update label now).current = label) ∧
    (runStabilizer (mkLabelStabilizerWith "B" 5 600)
        [("A", 1000), ("A", 1000), ("A", 1000), ("A", 1000),
         ("A", 1000)]).1 = ["B", "B", "B", "B", "A"] ∧
    (∀ n : ℕ,
        (runStabilizer (mkLabelStabilizerWith "B" 5 600)
          (altPairs n)).2.current = "B") := by
  refine ⟨?_, ?_, ?_⟩
  · intro α inst s label now h
    unfold LabelStabilizer.update at h ⊢
    by_cases h1 : label = s.current
    · rw [if_pos h1] at h
      simp at h
    · rw [if_neg h1] at h ⊢
      by_cases h2 : some label ≠ s.pending
      · rw [if_pos h2] at h
        simp at h
      · rw [if_neg h2] at h ⊢
        push_neg at h2
        by_cases h3 : s.stableFrames ≤ s.pendingFrames + 1 ∧
            s.cooldownMs ≤ now - s.lastSwitchAt
        · rw [if_pos h3] at h ⊢
          exact ⟨h2.symm, h3.1, h3.2, rfl⟩
        · rw [if_neg h3] at h
          simp at h
  · have e1 : (⟨"B", none, 0, 0, 5, 600⟩ : LabelStabilizer String).update
        "A" 1000 = ⟨"B", some "A", 1, 0, 5, 600⟩ :=
      stabilizer_reject_step _ "A" 1000 (by decide) (by decide)
    have e2 : (⟨"B", some "A", 1, 0, 5, 600⟩ : LabelStabilizer String).update
        "A" 1000 = ⟨"B", some "A", 2, 0, 5, 600⟩ :=
      stabilizer_pending_step _ "A" 1000 (by decide) rfl (by norm_num)
    have e3 : (⟨"B", some "A", 2, 0, 5, 600⟩ : LabelStabilizer String).update
        "A" 1000 = ⟨"B", some "A", 3, 0, 5, 600⟩ :=
      stabilizer_pending_step _ "A" 1000 (by decide) rfl (by norm_num)
    have e4 : (⟨"B", some "A", 3, 0, 5, 600⟩ : LabelStabilizer String).update
        "A" 1000 = ⟨"B", some "A", 4, 0, 5, 600⟩ :=
      stabilizer_pending_step _ "A" 1000 (by decide) rfl (by norm_num)
    have e5 : (⟨"B", some "A", 4, 0, 5, 600⟩ : LabelStabilizer String).update
        "A" 1000 = ⟨"A", none, 0, 1000, 5, 600⟩ :=
      stabilizer_commit_step _ "A" 1000 (by decide) rfl (by norm_num)
    simp only [mkLabelStabilizerWith, runStabilizer, e1, e2, e3, e4, e5]
  · intro n
    exact stabilizer_alt_never_commits n (mkLabelStabilizerWith "B" 5 600)
      rfl (by simp [mkLabelStabilizerWith])

/-- C4 witness: a stabilizer at `B` with pending `A` for four frames and
an eligible timestamp commits on the fifth matching update. -/
theorem label_stabilizer_commit_invariant_witness :
    (⟨"B", some "A", 4, 0, 5, 600⟩ : LabelStabilizer String).pending =
        some "A" ∧
    (5 : ℕ) ≤ 4 + 1 ∧
    (600 : ℚ) ≤ 1000 - 0 ∧
    ((⟨"B", some "A", 4, 0, 5, 600⟩ : LabelStabilizer String).update
        "A" 1000).current = "A" :=
  label_stabilizer_commit_invariant.1 String
    (⟨"B", some "A", 4, 0, 5, 600⟩ : LabelStabilizer String) "A" 1000
    (by
      rw [stabilizer_commit_step _ "A" 1000 (by decide) rfl (by norm_num)]
      decide)

/-- C1 counterexample: detection at t=0 followed by undetected frames at
t=200 and t=400 — the 400ms gap is below the 500ms hold window, yet the
presence state is already ABSENT on the third frame, because the
last-detected timestamp is cleared on the first undetected frame. -/
theorem presence_gating_multi_frame_gap_counterexample :
    presenceRun [(0, true), (200, false), (400, false)] =
      [true, true, false] ∧
    (400 : ℚ) - 0 < FACE_HOLD_MS := by
  constructor
  · norm_num [presenceRun, presenceRunFrom, presenceStep, FACE_HOLD_MS]
  · norm_num [FACE_HOLD_MS]

/-- C1 amended: presence is PRESENT on a frame iff a face is detected
this frame, or the immediately preceding frame was detected (the
last-detected timestamp survives only until the first undetected frame)
and the gap is below the 500ms hold; the timestamp is set on detection
and cleared otherwise, so only a single-frame dropout is absorbed.  A
single undetected frame at a 400ms gap stays PRESENT; at a 600ms gap it
is ABSENT. -/
theorem presence_gating_amended :
    (∀ (last : Option ℚ) (now : ℚ) (detected : Bool),
        ((presenceStep last now detected).1 = true ↔
          detected = true ∨
            ∃ t, last = some t ∧ now - t < FACE_HOLD_MS) ∧
        (presenceStep last now detected).2 =
          (if detected then some now else none)) ∧
    presenceRun [(0, true), (400, false)] = [true, true] ∧
    presenceRun [(0, true), (600, false)] = [true, false] := by
  refine ⟨?_, ?_, ?_⟩
  · intro last now detected
    cases detected with
    | true =>
      cases last <;> simp [presenceStep]
    | false =>
      cases last with
      | none => simp [presenceStep]
      | some t => simp [presenceStep]
  · norm_num [presenceRun, presenceRunFrom, presenceStep, FACE_HOLD_MS]
  · norm_num [presenceRun, presenceRunFrom, presenceStep, FACE_HOLD_MS]

/-- C3 counterexample: the blendshape-native detector fires at t=0
(tongue score 0.3 ≥ 0.2, raw label FREAKY) but does not arm the hold —
the deadline stays 0 — so at t=100 (gap ≤ 699ms) with geometry
`mouthOpen = 0.2 > 0.08` and no fresh detection the label is not forced
to FREAKY. -/
theorem tongue_hold_blend_detector_counterexample :
    blendBranchLabel (3/10) (5/100) (1/10) (4/10) ⟨1, 1/10, 1/10, 1⟩ =
      ExpressionLabel.FREAKY ∧
    (20/100 : ℚ) ≤ 3/10 ∧
    tongueStep 0 0 ExpressionLabel.FREAKY (some (2/10)) (some 0) =
      (ExpressionLabel.FREAKY, 0) ∧
    tongueStep 0 100 ExpressionLabel.NEUTRAL (some (2/10)) (some 0) =
      (ExpressionLabel.NEUTRAL, 0) ∧
    (100 : ℚ) - 0 ≤ 699 ∧ (8/100 : ℚ) < 2/10 ∧
    ExpressionLabel.NEUTRAL ≠ ExpressionLabel.FREAKY := by
  refine ⟨?_, by norm_num, ?_, ?_, by norm_num, by norm_num, by decide⟩
  · norm_num [blendBranchLabel, tongueProxy]
  · norm_num [tongueStep]
  · norm_num [tongueStep]

/-- C3 amended: only the color-sampling detector (confidence ≥ 0.25 with
geometry `mouthOpen > 0.1`) arms the hold, setting the deadline to
now + 700ms and forcing FREAKY immediately; while armed at t, any frame
at t' with t' − t ≤ 699ms and geometry `mouthOpen > 0.08` is forced to
FREAKY; once t' − t ≥ 700ms (in particular at 701ms) the override no
longer applies absent a renewed detection. -/
theorem tongue_hold_amended :
    (∀ (holdUntil now mo c : ℚ) (base : ExpressionLabel),
        25/100 ≤ c → 1/10 < mo →
        tongueStep holdUntil now base (some mo) (some c) =
          (ExpressionLabel.FREAKY, now + 700)) ∧
    (∀ (t tp mo : ℚ) (base : ExpressionLabel),
        tp - t ≤ 699 → 8/100 < mo →
        (tongueStep (t + 700) tp base (some mo) none).1 =
          ExpressionLabel.FREAKY) ∧
    (∀ (t tp mo : ℚ) (base : ExpressionLabel),
        700 ≤ tp - t →
        tongueStep (t + 700) tp base (some mo) none = (base, t + 700)) := by
  refine ⟨?_, ?_, ?_⟩
  · intro holdUntil now mo c base h1 h2
    simp only [tongueStep]
    have harm : (if (25/100 : ℚ) ≤ c ∧ (1/10 : ℚ) < mo
        then now + 700 else holdUntil) = now + 700 := if_pos ⟨h1, h2⟩
    simp only [harm]
    rw [if_pos (show now < now + 700 ∧ (8/100 : ℚ) < mo from
      ⟨by linarith, by linarith⟩)]
  · intro t tp mo base h1 h2
    simp only [tongueStep]
    rw [if_pos ⟨by linarith, h2⟩]
  · intro t tp mo base h1
    simp only [tongueStep]
    rw [if_neg ?_]
    intro hcon
    rcases hcon with ⟨hlt, _⟩
    linarith

/-- C3 witness: arming at t=0 with confidence 0.3 and mouthOpen 0.2
forces FREAKY with deadline 700; at t=699 the hold still forces FREAKY;
at t=701 it no longer does. -/
theorem tongue_hold_amended_witness :
    tongueStep 0 0 ExpressionLabel.NEUTRAL (some (2/10)) (some (3/10)) =
      (ExpressionLabel.FREAKY, 0 + 700) ∧
    (tongueStep (0 + 700) 699 ExpressionLabel.NEUTRAL (some (2/10)) none).1 =
      ExpressionLabel.FREAKY ∧
    tongueStep (0 + 700) 701 ExpressionLabel.NEUTRAL (some (2/10)) none =
      (ExpressionLabel.NEUTRAL, 0 + 700) := by
  refine ⟨?_, ?_, ?_⟩
  · exact tongue_hold_amended.1 0 0 (2/10) (3/10) ExpressionLabel.NEUTRAL
      (by norm_num) (by norm_num)
  · exact tongue_hold_amended.2.1 0 699 (2/10) ExpressionLabel.NEUTRAL
      (by norm_num) (by norm_num)
  · exact tongue_hold_amended.2.2 0 701 (2/10) ExpressionLabel.NEUTRAL
      (by norm_num)

/-- C7 counterexample: for a 200×200 frame with mouth corners at
x = 0.2 / 0.7 and lips at y = 0.4 / 0.6 the mouth box is 100×40 pixels
and the sampled crop is 50 pixels wide — 50% of the mouth width, not
the claimed 60% (which would be 60). -/
theorem tongue_crop_width_counterexample :
    (tongueRect 200 200 ⟨2/10, 5/10⟩ ⟨7/10, 5/10⟩ ⟨45/100, 4/10⟩
        ⟨45/100, 6/10⟩).sampleWidth = 50 ∧
    (tongueRect 200 200 ⟨2/10, 5/10⟩ ⟨7/10, 5/10⟩ ⟨45/100, 4/10⟩
        ⟨45/100, 6/10⟩).mouthWidth = 100 ∧
    ¬(((50 : ℤ) : ℚ) = (6/10) * 100) := by
  refine ⟨?_, ?_, by norm_num⟩ <;> norm_num [tongueRect, max_def, min_def]

/-- C7 amended: the crop is `max(6, ⌊0.5·mouthWidth⌋)` by
`max(4, ⌊0.6·mouthHeight⌋)` pixels (50% of the mouth width, 60% of its
height), centered at the mouth's vertical midpoint shifted down by 10%
of mouth height and clamped to the frame; the result is a red-dominant
pixel fraction in [0, 1], and it is `none` whenever a mouth landmark,
a frame dimension or the drawing context is unavailable. -/
theorem tongue_confidence_amended :
    (∀ (fr : VideoFrame) (lm : ℕ → Option FaceLandmark) (ctx : Bool),
        lm 61 = none ∨ lm 291 = none ∨ lm 13 = none ∨ lm 14 = none →
        getTongueConfidence fr lm ctx = none) ∧
    (∀ (fr : VideoFrame) (lm : ℕ → Option FaceLandmark) (ctx : Bool),
        fr.width = 0 ∨ fr.height = 0 → getTongueConfidence fr lm ctx = none) ∧
    (∀ (fr : VideoFrame) (lm : ℕ → Option FaceLandmark),
        getTongueConfidence fr lm false = none) ∧
    (∀ (fr : VideoFrame) (lm : ℕ → Option FaceLandmark) (ctx : Bool) (q : ℚ),
        getTongueConfidence fr lm ctx = some q → 0 ≤ q ∧ q ≤ 1) ∧
    tongueRect 200 200 ⟨2/10, 5/10⟩ ⟨7/10, 5/10⟩ ⟨45/100, 4/10⟩
        ⟨45/100, 6/10⟩ = ⟨100, 40, 50, 24, 65, 92, 50, 24⟩ := by
  refine ⟨?_, ?_, ?_, ?_, ?_⟩
  · intro fr lm ctx h
    cases h61 : lm 61 <;> cases h291 : lm 291 <;> cases h13 : lm 13 <;>
      cases h14 : lm 14 <;> simp_all [getTongueConfidence]
  · intro fr lm ctx h
    cases h61 : lm 61 <;> cases h291 : lm 291 <;> cases h13 : lm 13 <;>
      cases h14 : lm 14 <;> rcases h with h | h <;>
      simp_all [getTongueConfidence]
  · intro fr lm
    cases h61 : lm 61 <;> cases h291 : lm 291 <;> cases h13 : lm 13 <;>
      cases h14 : lm 14 <;> simp_all [getTongueConfidence, ite_self]
  · intro fr lm ctx q h
    simp only [getTongueConfidence] at h
    split at h
    · split at h
      · exact absurd h (by simp)
      · split at h
        · exact absurd h (by simp)
        · split at h
          · exact absurd h (by simp)
          · split at h
            · exact absurd h (by simp)
            · rename_i hne
              rw [Option.some_inj] at h
              subst h
              constructor
              · exact div_nonneg (Nat.cast_nonneg _) (Nat.cast_nonneg _)
              · rw [div_le_one (by exact_mod_cast Nat.pos_of_ne_zero hne)]
                exact_mod_cast List.countP_le_length _
    · exact absurd h (by simp)
  · norm_num [tongueRect, max_def, min_def]

/-- C7 witness: missing landmarks and a zero-width frame give `none`,
and on an all-red 10×10 frame the fraction (here exactly 1) is within
[0, 1]. -/
theorem tongue_confidence_amended_witness :
    getTongueConfidence tinyFrame (fun _ => none) true = none ∧
    getTongueConfidence (⟨0, 10, fun _ _ => ⟨0, 0, 0⟩⟩ : VideoFrame)
      tinyLandmarks true = none ∧
    ((0 : ℚ) ≤ 1 ∧ (1 : ℚ) ≤ 1) := by
  refine ⟨?_, ?_, ?_⟩
  · exact tongue_confidence_amended.1 tinyFrame (fun _ => none) true
      (Or.inl rfl)
  · exact tongue_confidence_amended.2.1 _ tinyLandmarks true (Or.inl rfl)
  · refine tongue_confidence_amended.2.2.2.1 tinyFrame tinyLandmarks true 1 ?_
    have hrect : tongueRect 10 10 ⟨1/10, 1/2⟩ ⟨3/10, 1/2⟩ ⟨2/10, 4/10⟩
        ⟨2/10, 6/10⟩ = ⟨2, 2, 6, 4, 0, 3, 6, 4⟩ := by
      norm_num [tongueRect, max_def, min_def]
    have hpix : sampledPixels tinyFrame ⟨2, 2, 6, 4, 0, 3, 6, 4⟩ =
        List.replicate 24 (⟨200, 10, 10⟩ : RGB) := by decide
    have hred : redDominant ⟨200, 10, 10⟩ = true := by
      norm_num [redDominant]
    have hcount : List.countP redDominant
        (List.replicate 24 (⟨200, 10, 10⟩ : RGB)) = 24 := by
      have hc : List.countP redDominant
          (List.replicate 24 (⟨200, 10, 10⟩ : RGB)) =
          (List.replicate 24 (⟨200, 10, 10⟩ : RGB)).length :=
        List.countP_eq_length.mpr (fun a ha => by
          rw [List.eq_of_mem_replicate ha]; exact hred)
      simpa using hc
    have hL61 : tinyLandmarks 61 = some ⟨1/10, 1/2⟩ := rfl
    have hL291 : tinyLandmarks 291 = some ⟨3/10, 1/2⟩ := rfl
    have hL13 : tinyLandmarks 13 = some ⟨2/10, 4/10⟩ := rfl
    have hL14 : tinyLandmarks 14 = some ⟨2/10, 6/10⟩ := rfl
    simp only [getTongueConfidence, hL61, hL291, hL13, hL14]
    rw [show tinyFrame.width = 10 from rfl, show tinyFrame.height = 10
      from rfl, hrect]
    rw [if_neg (by norm_num), if_neg (by norm_num)]
    rw [if_neg (by simp)]
    rw [hpix, hcount]
    rw [if_neg (by simp)]
    simp

end CarInside
